import Mathlib

/-!
Shallow embedding of the whatsmycli GPU plugin (src/plugin.cpp).

The C++ program enumerates GPU devices (Linux via /sys/class/drm, Windows
via the Setup API, macOS placeholder), normalises them into GPUInfo
records, and exposes a plugin_run entry point that interprets command
line arguments and prints records.

Filesystem and OS-API state is modelled explicitly: a Linux drm entry
carries the observable contents of its uevent and candidate name files;
a Windows device carries the observable results of its four registry
property queries.  Pure string manipulation from the C++ code
(tolower, std::string::find, std::stoi, stream token extraction) is
embedded as executable functions on lists of characters.
-/

/-- Character predicate of C isspace in the C locale:
space, tab, newline, vertical tab, form feed, carriage return. -/
def isSpaceC (c : Char) : Bool :=
  c.toNat = 32 || c.toNat = 9 || c.toNat = 10 || c.toNat = 11 || c.toNat = 12 || c.toNat = 13

/-- Character predicate of C isdigit: the characters 0 through 9. -/
def isDigitC (c : Char) : Bool :=
  48 ≤ c.toNat && c.toNat ≤ 57

/-- Model of C tolower on one character (ASCII, C locale):
uppercase letters map to lowercase, everything else is unchanged. -/
def asciiToLower (c : Char) : Char :=
  if 65 ≤ c.toNat ∧ c.toNat ≤ 90 then Char.ofNat (c.toNat + 32) else c

/-- Model of std transform with tolower over a whole string. -/
def strToLower (s : String) : String :=
  String.mk (s.data.map asciiToLower)

/-- Is pat a prefix of the second list (exact character match)? -/
def isPrefixList : List Char → List Char → Bool
  | [], _ => true
  | _ :: _, [] => false
  | a :: as, b :: bs => a == b && isPrefixList as bs

/-- Model of std string find on a needle followed by substr past it:
returns the suffix that follows the FIRST occurrence of pat, or none
when pat does not occur (find returned npos). -/
def afterFirst (pat : List Char) : List Char → Option (List Char)
  | [] => if isPrefixList pat [] then some [] else none
  | c :: cs =>
    if isPrefixList pat (c :: cs) then some (List.drop pat.length (c :: cs))
    else afterFirst pat cs

/-- Does s contain pat as a substring? -/
def strContainsSub (s pat : String) : Bool :=
  (afterFirst pat.data s.data).isSome

/-- Model of string find on a single character with the substr pair that
follows in the C++ code: split at the FIRST occurrence of c, returning
the parts before and after it; none when c does not occur. -/
def splitAtFirst (c : Char) : List Char → Option (List Char × List Char)
  | [] => none
  | a :: as =>
    if a == c then some ([], as)
    else
      match splitAtFirst c as with
      | none => none
      | some pr => some (a :: pr.1, pr.2)

/-- Model of istream token extraction: skip isspace characters, then read
the maximal run of non-space characters; none if nothing remains. -/
def firstToken (cs : List Char) : Option (List Char) :=
  match cs.dropWhile isSpaceC with
  | [] => none
  | c :: rest => some (List.takeWhile (fun ch => !isSpaceC ch) (c :: rest))

/-- Numeric value of a list of decimal digit characters. -/
def digitsVal (cs : List Char) : Nat :=
  List.foldl (fun a c => a * 10 + (c.toNat - 48)) 0 cs

/-- Model of the consumed sign character of strtol: a leading minus
(code 45) gives sign -1, a leading plus (code 43) gives sign 1, both
consumed; otherwise sign 1 with nothing consumed. -/
def splitSign : List Char → Int × List Char
  | [] => (1, [])
  | c :: r =>
    if c.toNat = 45 then (-1, r)
    else if c.toNat = 43 then (1, r)
    else (1, c :: r)

/-- Smallest value of the C++ int type (32-bit twos-complement). -/
def intMin : Int := -(2 ^ 31)

/-- Largest value of the C++ int type (32-bit twos-complement). -/
def intMax : Int := 2 ^ 31 - 1

/-- Failure modes of std stoi. -/
inductive StoiError where
  | invalidArgument
  | outOfRange
deriving DecidableEq

instance {ε α : Type} [DecidableEq ε] [DecidableEq α] : DecidableEq (Except ε α)
  | Except.ok a, Except.ok b => decidable_of_iff (a = b) (by simp)
  | Except.ok _, Except.error _ => isFalse (fun h => Except.noConfusion h)
  | Except.error _, Except.ok _ => isFalse (fun h => Except.noConfusion h)
  | Except.error a, Except.error b => decidable_of_iff (a = b) (by simp)

/-- Model of std stoi in base 10 (strtol semantics): skip leading
isspace characters, consume an optional sign, then consume decimal
digits.  No digits consumed raises invalid_argument; a value outside
the int range raises out_of_range; trailing characters are ignored. -/
def stoi (s : String) : Except StoiError Int :=
  let cs := s.data.dropWhile isSpaceC
  let sc := splitSign cs
  let digits := List.takeWhile isDigitC sc.2
  if digits = [] then Except.error StoiError.invalidArgument
  else
    let v : Int := sc.1 * (digitsVal digits : Nat)
    if v < intMin ∨ intMax < v then Except.error StoiError.outOfRange
    else Except.ok v

/-- GPU information record (struct GPUInfo): fields name, vendor,
driver_version, pci_id, index, is_active in source order. -/
structure GPUInfo where
  name : String
  vendor : String
  driver_version : String
  pci_id : String
  index : Nat
  is_active : Bool
deriving DecidableEq

/-- Placeholder record used to keep vector indexing total in the model;
the run only indexes inside the proven bounds. -/
def defaultGPU : GPUInfo :=
  ⟨"", "", "", "", 0, false⟩

namespace Color

/-- ANSI reset code. -/
def RESET : String := "\x1b[0m"

/-- ANSI bold code. -/
def BOLD : String := "\x1b[1m"

/-- ANSI cyan code. -/
def CYAN : String := "\x1b[36m"

/-- ANSI green code. -/
def GREEN : String := "\x1b[32m"

/-- ANSI yellow code. -/
def YELLOW : String := "\x1b[33m"

/-- ANSI blue code. -/
def BLUE : String := "\x1b[34m"

/-- ANSI dim code. -/
def DIM : String := "\x1b[2m"

end Color

/-- Mapping from a raw PCI vendor identifier string to a vendor name
(get_vendor_name): lowercase the input, then compare against the fixed
table with and without the 0x prefix; anything else is Unknown. -/
def get_vendor_name (vendor_id : String) : String :=
  let id := strToLower vendor_id
  if id = "0x10de" ∨ id = "10de" then "NVIDIA"
  else if id = "0x1002" ∨ id = "1002" then "AMD"
  else if id = "0x8086" ∨ id = "8086" then "Intel"
  else "Unknown"

/-- Observable state of one /sys/class/drm directory entry: its file
name, the lines of its device/uevent file (none when the file does not
exist), and the lines of the three candidate name files device/label,
device/product_name and device/model (none when absent). -/
structure DrmEntry where
  filename : String
  uevent : Option (List String)
  label : Option (List String)
  product_name : Option (List String)
  model : Option (List String)
deriving DecidableEq

/-- The entry filter of detect_gpus_linux: the file name starts with
card and contains no dash (excluding connector entries like card0-DP-1). -/
def keepEntry (s : String) : Bool :=
  isPrefixList "card".data s.data && !(s.data.contains (Char.ofNat 45))

/-- Running state of the uevent while loop: the pci_id field of the
record under construction plus the local vendor_id and device_id
strings, in that order. -/
structure UeventAcc where
  pci_id : String
  vendor_id : String
  device_id : String

/-- One iteration of the uevent while loop: a line starting with
PCI_ID= overwrites pci_id with the rest of the line, and, when that
rest contains a colon, also overwrites vendor_id and device_id with the
parts before and after the first colon. -/
def processUeventLine (acc : UeventAcc) (line : String) : UeventAcc :=
  if isPrefixList "PCI_ID=".data line.data then
    let p := String.mk (line.data.drop 7)
    match splitAtFirst (Char.ofNat 58) p.data with
    | some pr => ⟨p, String.mk pr.1, String.mk pr.2⟩
    | none => ⟨p, acc.vendor_id, acc.device_id⟩
  else acc

/-- Whole uevent scan: fold the loop body over the file lines starting
from empty strings. -/
def uevent_scan (lines : List String) : UeventAcc :=
  List.foldl processUeventLine ⟨"", "", ""⟩ lines

/-- The pci_id and vendor fields resulting from the uevent block: when
the uevent file exists its lines are scanned and the vendor id is
mapped through get_vendor_name; when it does not exist both fields keep
their default empty value. -/
def ueventFields : Option (List String) → String × String
  | none => ("", "")
  | some lines =>
    let acc := uevent_scan lines
    (acc.pci_id, get_vendor_name acc.vendor_id)

/-- Reading one candidate name file: none when the file is absent or
its first line cannot be read or is empty (the loop then moves on);
otherwise the first line. -/
def nameFromFile : Option (List String) → Option String
  | none => none
  | some [] => none
  | some (l :: _) => if l = "" then none else some l

/-- The marker token searched for in the NVIDIA kernel module version
file. -/
def kernelModuleMarker : List Char := "Kernel Module".data

/-- One iteration of the NVIDIA version loop: when the line contains the
marker Kernel Module, take the text after its first occurrence and, if a
whitespace-delimited token can be extracted, overwrite the version. -/
def nvidiaVersionStep (acc : String) (line : String) : String :=
  match afterFirst kernelModuleMarker line.data with
  | none => acc
  | some rem =>
    match firstToken rem with
    | none => acc
    | some tok => String.mk tok

/-- The driver_version field: read only for NVIDIA records, by folding
the version loop over the lines of /proc/driver/nvidia/version (none
when that file is absent, leaving the default empty string). -/
def nvidiaDriverVersion (vend : String) (nv : Option (List String)) : String :=
  if vend = "NVIDIA" then
    match nv with
    | some lines => List.foldl nvidiaVersionStep "" lines
    | none => ""
  else ""

/-- Construction of one GPUInfo record inside the Linux loop body, for
the entry e at loop counter idx, with nv the observable contents of the
NVIDIA version file. -/
def buildGpu (e : DrmEntry) (idx : Nat) (nv : Option (List String)) : GPUInfo :=
  let pv := ueventFields e.uevent
  let nameOpt :=
    match nameFromFile e.label with
    | some n => some n
    | none =>
      match nameFromFile e.product_name with
      | some n => some n
      | none => nameFromFile e.model
  let nm :=
    match nameOpt with
    | some n => n
    | none =>
      if pv.1 ≠ "" then pv.2 ++ " GPU [" ++ pv.1 ++ "]" else pv.2 ++ " GPU"
  ⟨nm, pv.2, nvidiaDriverVersion pv.2 nv, pv.1, idx, idx == 0⟩

/-- The Linux directory loop: each kept entry produces a record at the
current counter value and advances the counter; skipped entries leave
the counter unchanged. -/
def detectLinuxGo (nv : Option (List String)) : List DrmEntry → Nat → List GPUInfo
  | [], _ => []
  | e :: es, idx =>
    if keepEntry e.filename then buildGpu e idx nv :: detectLinuxGo nv es (idx + 1)
    else detectLinuxGo nv es idx

/-- detect_gpus_linux: empty when /sys/class/drm does not exist,
otherwise the loop over its directory entries starting at counter 0. -/
def detect_gpus_linux (drmExists : Bool) (entries : List DrmEntry) (nv : Option (List String)) :
    List GPUInfo :=
  if drmExists then detectLinuxGo nv entries 0 else []

/-- Observable results of the four registry property queries made for
one Windows display device: none models a failing
SetupDiGetDeviceRegistryPropertyA call. -/
structure WinDevice where
  desc : Option String
  mfg : Option String
  driver : Option String
  hardware_id : Option String
deriving DecidableEq

/-- The hardware-id parse of the Windows loop: find VEN_ and DEV_ in the
id string and, when both occur, compose the four characters after each
into vendor:device; otherwise leave pci_id empty. -/
def parseHwid : Option String → String
  | none => ""
  | some hwid =>
    match afterFirst "VEN_".data hwid.data, afterFirst "DEV_".data hwid.data with
    | some v, some d => String.mk (v.take 4) ++ ":" ++ String.mk (d.take 4)
    | _, _ => ""

/-- Construction of one GPUInfo record inside the Windows loop body:
each property that resolves overwrites the default empty string. -/
def buildGpuWin (d : WinDevice) (idx : Nat) : GPUInfo :=
  ⟨d.desc.getD "", d.mfg.getD "", d.driver.getD "", parseHwid d.hardware_id, idx, idx == 0⟩

/-- The Windows enumeration loop: every enumerated device produces a
record at the current counter value. -/
def detectWindowsGo : List WinDevice → Nat → List GPUInfo
  | [], _ => []
  | d :: ds, idx => buildGpuWin d idx :: detectWindowsGo ds (idx + 1)

/-- detect_gpus_windows: empty when SetupDiGetClassDevs returns
INVALID_HANDLE_VALUE, otherwise the loop over the enumerated devices
starting at counter 0. -/
def detect_gpus_windows (handleOk : Bool) (devices : List WinDevice) : List GPUInfo :=
  if handleOk then detectWindowsGo devices 0 else []

/-- print_header: newline, bold cyan text, reset, newline, a line of 50
equals signs, newline. -/
def print_header (text : String) : String :=
  "\n" ++ Color.BOLD ++ Color.CYAN ++ text ++ Color.RESET ++ "\n" ++
  String.mk (List.replicate 50 (Char.ofNat 61)) ++ "\n"

/-- print_field: two spaces, green key, colon, reset, value, newline. -/
def print_field (key value : String) : String :=
  "  " ++ Color.GREEN ++ key ++ ": " ++ Color.RESET ++ value ++ "\n"

/-- display_gpu: brief form prints index, active flag, Name, Vendor and
a PCI ID line when non-empty; verbose form prints a header with index
and active flag, Name, Vendor, then Driver Version and PCI ID when
known and not the N/A placeholder. -/
def display_gpu (gpu : GPUInfo) (brief : Bool) : String :=
  if brief then
    Color.BOLD ++ "GPU " ++ toString gpu.index ++ Color.RESET ++
    (if gpu.is_active then " " ++ Color.GREEN ++ "(Active)" ++ Color.RESET else "") ++ "\n" ++
    print_field "Name" gpu.name ++
    print_field "Vendor" gpu.vendor ++
    (if gpu.pci_id ≠ "" then print_field "PCI ID" gpu.pci_id else "")
  else
    print_header ("GPU " ++ toString gpu.index ++ (if gpu.is_active then " (Active)" else "")) ++
    print_field "Name" gpu.name ++
    print_field "Vendor" gpu.vendor ++
    (if gpu.driver_version ≠ "" ∧ gpu.driver_version ≠ "N/A" then
      print_field "Driver Version" gpu.driver_version else "") ++
    (if gpu.pci_id ≠ "" ∧ gpu.pci_id ≠ "N/A" then
      print_field "PCI ID" gpu.pci_id else "")

/-- display_all_gpus: a notice for the empty list, otherwise a count
header followed by the brief blocks separated by blank lines (a newline
after every block except the last). -/
def display_all_gpus (gpus : List GPUInfo) : String :=
  if gpus.isEmpty then
    Color.YELLOW ++ "No GPUs detected." ++ Color.RESET ++ "\n"
  else
    print_header ("All GPUs (" ++ toString gpus.length ++ " detected)") ++
    String.intercalate "\n" (gpus.map (fun g => display_gpu g true))

/-- display_help: the usage text. -/
def display_help : String :=
  Color.BOLD ++ "GPU Plugin for whatsmycli" ++ Color.RESET ++ "\n\n" ++
  "Usage:\n" ++
  "  whatsmy gpu           " ++ Color.DIM ++ "# Show active/default GPU" ++ Color.RESET ++ "\n" ++
  "  whatsmy gpu all       " ++ Color.DIM ++ "# Show all GPUs" ++ Color.RESET ++ "\n" ++
  "  whatsmy gpu <index>   " ++ Color.DIM ++ "# Show specific GPU by index" ++ Color.RESET ++ "\n" ++
  "  whatsmy gpu help      " ++ Color.DIM ++ "# Show this help" ++ Color.RESET ++ "\n"

/-- The warning printed to the error stream when enumeration yields no
records. -/
def noGpusWarning : String :=
  Color.YELLOW ++ "Warning: No GPUs detected." ++ Color.RESET ++ "\n" ++
  "This could mean:\n" ++
  "  - No GPU is present in the system\n" ++
  "  - GPU drivers are not installed\n" ++
  "  - Insufficient permissions to access GPU information\n"

/-- The diagnostic for a numeric index outside the valid range. -/
def indexOutOfRangeMsg (index : Int) (count : Nat) : String :=
  Color.YELLOW ++ "Error: GPU index " ++ toString index ++ " out of range." ++ Color.RESET ++
  "\n" ++ "Available GPUs: 0-" ++ toString (count - 1) ++ "\n"

/-- The diagnostic for an argument that is neither a keyword nor an
integer std stoi accepts. -/
def invalidArgumentMsg (arg : String) : String :=
  Color.YELLOW ++ "Error: Invalid argument \x27" ++ arg ++ "\x27." ++ Color.RESET ++ "\n" ++
  "Use \x27whatsmy gpu help\x27 for usage information.\n"

/-- The diagnostic for more than one argument. -/
def tooManyArgumentsMsg : String :=
  Color.YELLOW ++ "Error: Too many arguments." ++ Color.RESET ++ "\n" ++
  "Use \x27whatsmy gpu help\x27 for usage information.\n"

/-- Outcome of the body of the try block up to the point where records
are available: either the enumerated records, or an exception caught by
one of the two outer catch clauses (a std exception carrying a message,
or any other thrown object). -/
inductive EnumOutcome where
  | ok (gpus : List GPUInfo)
  | stdExc (msg : String)
  | unknownExc

/-- Result of one plugin_run invocation: the returned exit code and the
text written to standard output and to the error stream. -/
structure RunResult where
  exit : Int
  stdout : String
  stderr : String
deriving DecidableEq

/-- plugin_run: the enumeration outcome and the argument list after the
program name (argc = args.length + 1) determine the exit code and the
two output streams, following the argument dispatch of the C++ entry
point. -/
def plugin_run (enum : EnumOutcome) (args : List String) : RunResult :=
  match enum with
  | EnumOutcome.stdExc m =>
    ⟨1, "", Color.YELLOW ++ "Error: " ++ m ++ Color.RESET ++ "\n"⟩
  | EnumOutcome.unknownExc =>
    ⟨1, "", Color.YELLOW ++ "Error: Unknown exception occurred." ++ Color.RESET ++ "\n"⟩
  | EnumOutcome.ok gpus =>
    match gpus with
    | [] => ⟨1, "", noGpusWarning⟩
    | g0 :: rest =>
      match args with
      | [] =>
        match List.find? (fun g => g.is_active) (g0 :: rest) with
        | some g => ⟨0, display_gpu g false, ""⟩
        | none => ⟨0, display_gpu g0 false, ""⟩
      | [arg] =>
        if arg = "help" ∨ arg = "--help" ∨ arg = "-h" then ⟨0, display_help, ""⟩
        else if arg = "all" then ⟨0, display_all_gpus (g0 :: rest), ""⟩
        else
          match stoi arg with
          | Except.ok index =>
            if index < 0 ∨ ((g0 :: rest).length : Int) ≤ index then
              ⟨1, "", indexOutOfRangeMsg index (g0 :: rest).length⟩
            else
              ⟨0, display_gpu (List.getD (g0 :: rest) index.toNat defaultGPU) false, ""⟩
          | Except.error _ => ⟨1, "", invalidArgumentMsg arg⟩
      | _ :: _ :: _ => ⟨1, "", tooManyArgumentsMsg⟩

/-! Sample inputs used by counterexamples and witnesses. -/

/-- A drm entry whose uevent file reports the AMD PCI id 1002:6798 and
which has no name source files. -/
def entryAmd : DrmEntry := ⟨"card0", some ["PCI_ID=1002:6798"], none, none, none⟩

/-- A drm entry whose device/uevent file does not exist. -/
def entryNoUevent : DrmEntry := ⟨"card0", none, none, none, none⟩

/-- A drm entry whose uevent file reports an NVIDIA PCI id. -/
def entryNvidia : DrmEntry := ⟨"card1", some ["PCI_ID=10DE:1C82"], none, none, none⟩

/-- A sample enumerated record, as the Linux path would produce it for
the first detected NVIDIA card. -/
def gpuA : GPUInfo := ⟨"NVIDIA GPU [10DE:1C82]", "NVIDIA", "", "10DE:1C82", 0, true⟩

/-- A second sample record at index 1. -/
def gpuB : GPUInfo := ⟨"AMD GPU [1002:6798]", "AMD", "", "1002:6798", 1, false⟩

/-- A Windows device whose four property queries all succeed. -/
def winDevA : WinDevice :=
  ⟨some "Sample Adapter", some "Sample Vendor Inc.", some "oem1.inf",
   some "PCI\x5cVEN_10DE&DEV_1C82&SUBSYS_0000"⟩

/-! Helper lemmas. -/

/-- get_vendor_name only ever returns one of the four fixed names. -/
theorem get_vendor_name_cases (s : String) :
    get_vendor_name s = "NVIDIA" ∨ get_vendor_name s = "AMD" ∨
    get_vendor_name s = "Intel" ∨ get_vendor_name s = "Unknown" := by
  simp only [get_vendor_name]
  split
  · exact Or.inl rfl
  · split
    · exact Or.inr (Or.inl rfl)
    · split
      · exact Or.inr (Or.inr (Or.inl rfl))
      · exact Or.inr (Or.inr (Or.inr rfl))

/-- get_vendor_name never returns the empty string. -/
theorem get_vendor_name_ne_empty (s : String) : get_vendor_name s ≠ "" := by
  rcases get_vendor_name_cases s with h | h | h | h <;> rw [h] <;> decide

/-- The vendor field of a record built on the Linux path is the second
component of the uevent block result. -/
theorem buildGpu_vendor (e : DrmEntry) (idx : Nat) (nv : Option (List String)) :
    (buildGpu e idx nv).vendor = (ueventFields e.uevent).2 := rfl

/-- The pci_id field of a record built on the Linux path is the first
component of the uevent block result. -/
theorem buildGpu_pci (e : DrmEntry) (idx : Nat) (nv : Option (List String)) :
    (buildGpu e idx nv).pci_id = (ueventFields e.uevent).1 := rfl

/-! Claim C1. -/

/-- Claim C1 counterexample: on the Linux path, a card entry whose
device/uevent file is absent yields a record whose vendor field is the
empty string, so the vendor is neither one of the four fixed names nor
non-empty. -/
theorem claim_C1_counterexample :
    ¬ (∀ g ∈ detect_gpus_linux true [entryNoUevent] none,
        (g.vendor = "NVIDIA" ∨ g.vendor = "AMD" ∨ g.vendor = "Intel" ∨ g.vendor = "Unknown") ∧
        g.vendor ≠ "") := by decide

/-- Claim C1 (amended): on the Linux path a record built from an entry
whose uevent file exists has a vendor drawn from the four fixed names
and never empty; when the uevent file is absent, the vendor field is
left as the empty string.  On the Windows path the vendor is the raw
manufacturer property (empty when the property query fails), not drawn
from the fixed set. -/
theorem claim_C1_amended_thm :
    (∀ e idx nv lines, e.uevent = some lines →
      ((buildGpu e idx nv).vendor = "NVIDIA" ∨ (buildGpu e idx nv).vendor = "AMD" ∨
       (buildGpu e idx nv).vendor = "Intel" ∨ (buildGpu e idx nv).vendor = "Unknown") ∧
      (buildGpu e idx nv).vendor ≠ "") ∧
    (∀ e idx nv, e.uevent = none → (buildGpu e idx nv).vendor = "") ∧
    (∀ d idx, (buildGpuWin d idx).vendor = Option.getD d.mfg "") := by
  refine ⟨?_, ?_, ?_⟩
  · intro e idx nv lines h
    rw [buildGpu_vendor, h]
    exact ⟨get_vendor_name_cases _, get_vendor_name_ne_empty _⟩
  · intro e idx nv h
    rw [buildGpu_vendor, h]
    rfl
  · intro d idx
    rfl

/-- Claim C1 witness: the amended statement evaluated on a real NVIDIA
entry, an entry with no uevent file, and a Windows device. -/
theorem claim_C1_witness :
    ((buildGpu entryNvidia 0 none).vendor = "NVIDIA" ∨
     (buildGpu entryNvidia 0 none).vendor = "AMD" ∨
     (buildGpu entryNvidia 0 none).vendor = "Intel" ∨
     (buildGpu entryNvidia 0 none).vendor = "Unknown") ∧
    (buildGpu entryNvidia 0 none).vendor ≠ "" ∧
    (buildGpu entryNoUevent 0 none).vendor = "" ∧
    (buildGpuWin winDevA 0).vendor = Option.getD winDevA.mfg "" := by
  have h1 := claim_C1_amended_thm.1 entryNvidia 0 none ["PCI_ID=10DE:1C82"] rfl
  have h2 := claim_C1_amended_thm.2.1 entryNoUevent 0 none rfl
  have h3 := claim_C1_amended_thm.2.2 winDevA 0
  exact ⟨h1.1, h1.2, h2, h3⟩

/-! Claim C3. -/

/-- Claim C3: when enumeration yields zero records, plugin_run returns
exit code 1 with the no-GPU warning on the error stream, for every
argument list (argument processing never happens), and the warning
names the three plausible causes. -/
theorem claim_C3_thm (args : List String) :
    plugin_run (EnumOutcome.ok []) args = ⟨1, "", noGpusWarning⟩ ∧
    strContainsSub noGpusWarning "No GPU is present in the system" = true ∧
    strContainsSub noGpusWarning "GPU drivers are not installed" = true ∧
    strContainsSub noGpusWarning "Insufficient permissions" = true := by
  exact ⟨rfl, by decide, by decide, by decide⟩

/-! Claim C6. -/

/-- Claim C6: the vendor-id lookup is determined by the lowercased
input, maps 10de, 1002 and 8086 with or without a 0x prefix to NVIDIA,
AMD and Intel respectively, maps every other input to Unknown, and in
particular sends 0x10DE, 10de and 0X10DE to NVIDIA. -/
theorem claim_C6_thm :
    (∀ s t : String, strToLower s = strToLower t → get_vendor_name s = get_vendor_name t) ∧
    (∀ s, (strToLower s = "0x10de" ∨ strToLower s = "10de") → get_vendor_name s = "NVIDIA") ∧
    (∀ s, (strToLower s = "0x1002" ∨ strToLower s = "1002") → get_vendor_name s = "AMD") ∧
    (∀ s, (strToLower s = "0x8086" ∨ strToLower s = "8086") → get_vendor_name s = "Intel") ∧
    (∀ s, strToLower s ≠ "0x10de" → strToLower s ≠ "10de" → strToLower s ≠ "0x1002" →
      strToLower s ≠ "1002" → strToLower s ≠ "0x8086" → strToLower s ≠ "8086" →
      get_vendor_name s = "Unknown") ∧
    get_vendor_name "0x10DE" = "NVIDIA" ∧ get_vendor_name "10de" = "NVIDIA" ∧
    get_vendor_name "0X10DE" = "NVIDIA" := by
  refine ⟨?_, ?_, ?_, ?_, ?_, by decide, by decide, by decide⟩
  · intro s t h
    simp only [get_vendor_name]
    rw [h]
  · intro s h
    simp only [get_vendor_name]
    rw [if_pos h]
  · intro s h
    simp only [get_vendor_name]
    rcases h with h | h <;> rw [h] <;> decide
  · intro s h
    simp only [get_vendor_name]
    rcases h with h | h <;> rw [h] <;> decide
  · intro s h1 h2 h3 h4 h5 h6
    simp only [get_vendor_name]
    rw [if_neg (by tauto), if_neg (by tauto), if_neg (by tauto)]

/-- Claim C6 witness: the lookup evaluated through the theorem on
concrete inputs. -/
theorem claim_C6_witness :
    get_vendor_name "0X1002" = "AMD" ∧ get_vendor_name "deadbeef" = "Unknown" ∧
    get_vendor_name "AbC" = get_vendor_name "aBc" := by
  refine ⟨claim_C6_thm.2.2.1 "0X1002" (Or.inl (by decide)),
          claim_C6_thm.2.2.2.2.1 "deadbeef" (by decide) (by decide) (by decide) (by decide)
            (by decide) (by decide),
          claim_C6_thm.1 "AbC" "aBc" (by decide)⟩

/-! Claim C7. -/

/-- Claim C7: when none of the three candidate name files yields a
name, the synthesized name is the vendor followed by GPU with the PCI
id in brackets when present, and just the vendor followed by GPU when
the PCI id is empty. -/
theorem claim_C7_thm (e : DrmEntry) (idx : Nat) (nv : Option (List String))
    (h1 : nameFromFile e.label = none) (h2 : nameFromFile e.product_name = none)
    (h3 : nameFromFile e.model = none) :
    (buildGpu e idx nv).name =
      if (buildGpu e idx nv).pci_id = "" then (buildGpu e idx nv).vendor ++ " GPU"
      else (buildGpu e idx nv).vendor ++ " GPU [" ++ (buildGpu e idx nv).pci_id ++ "]" := by
  simp only [buildGpu, h1, h2, h3, buildGpu_pci, buildGpu_vendor]
  by_cases hp : (ueventFields e.uevent).1 = "" <;> simp [hp]

/-- Claim C7 witness: the AMD entry with PCI id 1002:6798 and no name
sources synthesizes the name AMD GPU [1002:6798]. -/
theorem claim_C7_witness : (buildGpu entryAmd 0 none).name = "AMD GPU [1002:6798]" := by
  have h := claim_C7_thm entryAmd 0 none rfl rfl rfl
  rw [h]
  decide

/-- The index field assigned inside the Linux loop body is the loop
counter. -/
theorem buildGpu_index (e : DrmEntry) (idx : Nat) (nv : Option (List String)) :
    (buildGpu e idx nv).index = idx := rfl

/-- The active flag assigned inside the Linux loop body compares the
assigned index with 0. -/
theorem buildGpu_active (e : DrmEntry) (idx : Nat) (nv : Option (List String)) :
    (buildGpu e idx nv).is_active = (idx == 0) := rfl

/-- The indices produced by the Linux loop starting at counter k are
exactly k, k+1, ... in encounter order. -/
theorem detectLinuxGo_index_map (nv : Option (List String)) :
    ∀ (es : List DrmEntry) (k : Nat),
      (detectLinuxGo nv es k).map (fun g => g.index) =
        List.range' k (detectLinuxGo nv es k).length := by
  intro es
  induction es with
  | nil => intro k; rfl
  | cons e es ih =>
    intro k
    simp only [detectLinuxGo]
    by_cases h : keepEntry e.filename
    · rw [if_pos h]
      simp only [List.map_cons, List.length_cons, List.range'_succ, buildGpu_index]
      rw [ih (k + 1)]
    · rw [if_neg h]
      exact ih k

/-- Every record produced by the Linux loop carries the active flag
equal to the comparison of its own index with 0. -/
theorem detectLinuxGo_active_eq (nv : Option (List String)) :
    ∀ (es : List DrmEntry) (k : Nat) (g : GPUInfo),
      g ∈ detectLinuxGo nv es k → g.is_active = (g.index == 0) := by
  intro es
  induction es with
  | nil => intro k g h; simp [detectLinuxGo] at h
  | cons e es ih =>
    intro k g h
    simp only [detectLinuxGo] at h
    by_cases hk : keepEntry e.filename
    · rw [if_pos hk] at h
      rcases List.mem_cons.mp h with h | h
      · subst h; rfl
      · exact ih (k + 1) g h
    · rw [if_neg hk] at h
      exact ih k g h

/-- The Linux loop started at a positive counter produces no active
record. -/
theorem detectLinuxGo_countP_pos (nv : Option (List String)) :
    ∀ (es : List DrmEntry) (k : Nat), 0 < k →
      List.countP (fun g => g.is_active) (detectLinuxGo nv es k) = 0 := by
  intro es
  induction es with
  | nil => intro k _; rfl
  | cons e es ih =>
    intro k hk
    simp only [detectLinuxGo]
    by_cases h : keepEntry e.filename
    · rw [if_pos h]
      rw [List.countP_cons_of_neg]
      · exact ih (k + 1) (by omega)
      · simp only [buildGpu_active]
        simp only [Nat.beq_eq_true_eq]
        omega
    · rw [if_neg h]
      exact ih k hk

/-- The Linux loop started at counter 0 produces, when non-empty,
exactly one active record. -/
theorem detectLinuxGo_countP_zero (nv : Option (List String)) :
    ∀ (es : List DrmEntry), detectLinuxGo nv es 0 ≠ [] →
      List.countP (fun g => g.is_active) (detectLinuxGo nv es 0) = 1 := by
  intro es
  induction es with
  | nil => intro h; exact absurd rfl h
  | cons e es ih =>
    intro h
    simp only [detectLinuxGo] at h ⊢
    by_cases hk : keepEntry e.filename
    · rw [if_pos hk]
      rw [List.countP_cons_of_pos]
      · rw [detectLinuxGo_countP_pos nv es 1 (by omega)]
      · rfl
    · rw [if_neg hk] at h ⊢
      exact ih h

/-- The index field assigned inside the Windows loop body is the loop
counter. -/
theorem buildGpuWin_index (d : WinDevice) (idx : Nat) : (buildGpuWin d idx).index = idx := rfl

/-- The active flag assigned inside the Windows loop body compares the
assigned index with 0. -/
theorem buildGpuWin_active (d : WinDevice) (idx : Nat) :
    (buildGpuWin d idx).is_active = (idx == 0) := rfl

/-- The indices produced by the Windows loop starting at counter k are
exactly k, k+1, ... in encounter order. -/
theorem detectWindowsGo_index_map :
    ∀ (ds : List WinDevice) (k : Nat),
      (detectWindowsGo ds k).map (fun g => g.index) =
        List.range' k (detectWindowsGo ds k).length := by
  intro ds
  induction ds with
  | nil => intro k; rfl
  | cons d ds ih =>
    intro k
    simp only [detectWindowsGo, List.map_cons, List.length_cons, List.range'_succ,
      buildGpuWin_index]
    rw [ih (k + 1)]

/-- Every record produced by the Windows loop carries the active flag
equal to the comparison of its own index with 0. -/
theorem detectWindowsGo_active_eq :
    ∀ (ds : List WinDevice) (k : Nat) (g : GPUInfo),
      g ∈ detectWindowsGo ds k → g.is_active = (g.index == 0) := by
  intro ds
  induction ds with
  | nil => intro k g h; simp [detectWindowsGo] at h
  | cons d ds ih =>
    intro k g h
    simp only [detectWindowsGo] at h
    rcases List.mem_cons.mp h with h | h
    · subst h; rfl
    · exact ih (k + 1) g h

/-- The Windows loop started at a positive counter produces no active
record. -/
theorem detectWindowsGo_countP_pos :
    ∀ (ds : List WinDevice) (k : Nat), 0 < k →
      List.countP (fun g => g.is_active) (detectWindowsGo ds k) = 0 := by
  intro ds
  induction ds with
  | nil => intro k _; rfl
  | cons d ds ih =>
    intro k hk
    simp only [detectWindowsGo]
    rw [List.countP_cons_of_neg]
    · exact ih (k + 1) (by omega)
    · simp only [buildGpuWin_active]
      simp only [Nat.beq_eq_true_eq]
      omega

/-- The Windows loop started at counter 0 produces, when non-empty,
exactly one active record. -/
theorem detectWindowsGo_countP_zero :
    ∀ (ds : List WinDevice), detectWindowsGo ds 0 ≠ [] →
      List.countP (fun g => g.is_active) (detectWindowsGo ds 0) = 1 := by
  intro ds
  cases ds with
  | nil => intro h; exact absurd rfl h
  | cons d ds =>
    intro _
    simp only [detectWindowsGo]
    rw [List.countP_cons_of_pos]
    · rw [detectWindowsGo_countP_pos ds 1 (by omega)]
    · rfl

/-! Claim C5. -/

/-- Claim C5: for every enumeration result, on the Linux path and on
the Windows path alike, the index fields form the contiguous set
0 to N-1 in encounter order (the map of indices is List.range N). -/
theorem claim_C5_thm (dx : Bool) (entries : List DrmEntry) (nv : Option (List String))
    (hOk : Bool) (devs : List WinDevice) :
    (detect_gpus_linux dx entries nv).map (fun g => g.index) =
      List.range (detect_gpus_linux dx entries nv).length ∧
    (detect_gpus_windows hOk devs).map (fun g => g.index) =
      List.range (detect_gpus_windows hOk devs).length := by
  constructor
  · cases dx with
    | false => rfl
    | true =>
      simp only [detect_gpus_linux, if_true]
      rw [List.range_eq_range']
      exact detectLinuxGo_index_map nv entries 0
  · cases hOk with
    | false => rfl
    | true =>
      simp only [detect_gpus_windows, if_true]
      rw [List.range_eq_range']
      exact detectWindowsGo_index_map devs 0

/-! Claim C4. -/

/-- Claim C4: for every non-empty enumeration result, on the Linux path
and on the Windows path alike, exactly one record is active and a
record is active precisely when its index is 0. -/
theorem claim_C4_thm (dx : Bool) (entries : List DrmEntry) (nv : Option (List String))
    (hOk : Bool) (devs : List WinDevice)
    (hL : detect_gpus_linux dx entries nv ≠ [])
    (hW : detect_gpus_windows hOk devs ≠ []) :
    List.countP (fun g => g.is_active) (detect_gpus_linux dx entries nv) = 1 ∧
    (∀ g ∈ detect_gpus_linux dx entries nv, (g.is_active = true ↔ g.index = 0)) ∧
    List.countP (fun g => g.is_active) (detect_gpus_windows hOk devs) = 1 ∧
    (∀ g ∈ detect_gpus_windows hOk devs, (g.is_active = true ↔ g.index = 0)) := by
  refine ⟨?_, ?_, ?_, ?_⟩
  · cases dx with
    | false => exact absurd rfl hL
    | true =>
      simp only [detect_gpus_linux, if_true] at hL ⊢
      exact detectLinuxGo_countP_zero nv entries hL
  · cases dx with
    | false => intro g h; simp [detect_gpus_linux] at h
    | true =>
      intro g h
      simp only [detect_gpus_linux, if_true] at h
      rw [detectLinuxGo_active_eq nv entries 0 g h]
      simp [Nat.beq_eq_true_eq]
  · cases hOk with
    | false => exact absurd rfl hW
    | true =>
      simp only [detect_gpus_windows, if_true] at hW ⊢
      exact detectWindowsGo_countP_zero devs hW
  · cases hOk with
    | false => intro g h; simp [detect_gpus_windows] at h
    | true =>
      intro g h
      simp only [detect_gpus_windows, if_true] at h
      rw [detectWindowsGo_active_eq devs 0 g h]
      simp [Nat.beq_eq_true_eq]

/-- Claim C4 witness: the exactly-one-active property evaluated on a
two-card Linux enumeration and a one-device Windows enumeration. -/
theorem claim_C4_witness :
    List.countP (fun g => g.is_active)
      (detect_gpus_linux true [entryNvidia, entryAmd] none) = 1 ∧
    List.countP (fun g => g.is_active) (detect_gpus_windows true [winDevA]) = 1 := by
  have h := claim_C4_thm true [entryNvidia, entryAmd] none true [winDevA]
    (by decide) (by decide)
  exact ⟨h.1, h.2.2.1⟩

/-- Unfolding of plugin_run at a non-empty record list and exactly one
argument. -/
theorem plugin_run_single (g : GPUInfo) (gs : List GPUInfo) (arg : String) :
    plugin_run (EnumOutcome.ok (g :: gs)) [arg] =
      if arg = "help" ∨ arg = "--help" ∨ arg = "-h" then ⟨0, display_help, ""⟩
      else if arg = "all" then ⟨0, display_all_gpus (g :: gs), ""⟩
      else
        match stoi arg with
        | Except.ok index =>
          if index < 0 ∨ ((g :: gs).length : Int) ≤ index then
            ⟨1, "", indexOutOfRangeMsg index (g :: gs).length⟩
          else ⟨0, display_gpu (List.getD (g :: gs) index.toNat defaultGPU) false, ""⟩
        | Except.error _ => ⟨1, "", invalidArgumentMsg arg⟩ := rfl

/-- A single non-keyword argument on which stoi raises takes the
invalid-argument path: exit 1 and the invalid-argument diagnostic on
the error stream. -/
theorem run_single_stoi_error (g : GPUInfo) (gs : List GPUInfo) (arg : String)
    (err : StoiError)
    (h1 : arg ≠ "help") (h2 : arg ≠ "--help") (h3 : arg ≠ "-h") (h4 : arg ≠ "all")
    (h5 : stoi arg = Except.error err) :
    plugin_run (EnumOutcome.ok (g :: gs)) [arg] = ⟨1, "", invalidArgumentMsg arg⟩ := by
  rw [plugin_run_single, if_neg (by tauto), if_neg h4, h5]

/-! Claim C2. -/

/-- Claim C2 counterexample: the arguments -1 and 5abc are not
recognized keywords and are not non-negative integer numerals, yet with
one record enumerated the run reports the index-out-of-range
diagnostic, not the invalid-argument one (std stoi parses -1 as the
integer -1 and 5abc as the integer 5). -/
theorem claim_C2_counterexample :
    (plugin_run (EnumOutcome.ok [gpuA]) ["-1"]).exit = 1 ∧
    (plugin_run (EnumOutcome.ok [gpuA]) ["-1"]).stderr = indexOutOfRangeMsg (-1) 1 ∧
    (plugin_run (EnumOutcome.ok [gpuA]) ["-1"]).stderr ≠ invalidArgumentMsg "-1" ∧
    strContainsSub (plugin_run (EnumOutcome.ok [gpuA]) ["-1"]).stderr "Invalid argument"
      = false ∧
    (plugin_run (EnumOutcome.ok [gpuA]) ["5abc"]).stderr = indexOutOfRangeMsg 5 1 := by
  decide

/-- Claim C2 (amended): for every single argument that is not a
recognized keyword and on which std stoi raises (no digits after the
optional whitespace and sign, or a value outside the int range),
plugin_run with at least one record enumerated prints the
invalid-argument diagnostic to the error stream and returns exit code
1.  Strings such as -1 and 5abc do parse (to -1 and 5) and take the
index path instead. -/
theorem claim_C2_amended_thm (g : GPUInfo) (gs : List GPUInfo) (arg : String)
    (err : StoiError)
    (h1 : arg ≠ "help") (h2 : arg ≠ "--help") (h3 : arg ≠ "-h") (h4 : arg ≠ "all")
    (h5 : stoi arg = Except.error err) :
    plugin_run (EnumOutcome.ok (g :: gs)) [arg] = ⟨1, "", invalidArgumentMsg arg⟩ :=
  run_single_stoi_error g gs arg err h1 h2 h3 h4 h5

/-- Claim C2 witness: the argument xyz with one record enumerated. -/
theorem claim_C2_witness :
    plugin_run (EnumOutcome.ok [gpuA]) ["xyz"] = ⟨1, "", invalidArgumentMsg "xyz"⟩ :=
  claim_C2_amended_thm gpuA [] "xyz" StoiError.invalidArgument (by decide) (by decide)
    (by decide) (by decide) (by decide)

/-! Claim C8. -/

/-- Claim C8: a single argument std stoi parses to a non-negative
integer i, with at least one record enumerated, displays record i and
returns 0 when i is below the record count, and otherwise returns 1
with the out-of-range diagnostic built from the count (whose text names
the valid range 0 to count-1). -/
theorem claim_C8_thm (g : GPUInfo) (gs : List GPUInfo) (arg : String) (i : Int)
    (h1 : stoi arg = Except.ok i) (h2 : 0 ≤ i) :
    plugin_run (EnumOutcome.ok (g :: gs)) [arg] =
      if i < ((g :: gs).length : Int) then
        ⟨0, display_gpu (List.getD (g :: gs) i.toNat defaultGPU) false, ""⟩
      else ⟨1, "", indexOutOfRangeMsg i (g :: gs).length⟩ := by
  have hx1 : stoi "help" = Except.error StoiError.invalidArgument := by decide
  have hx2 : stoi "--help" = Except.error StoiError.invalidArgument := by decide
  have hx3 : stoi "-h" = Except.error StoiError.invalidArgument := by decide
  have hx4 : stoi "all" = Except.error StoiError.invalidArgument := by decide
  have hk1 : arg ≠ "help" := by intro h; rw [h, hx1] at h1; cases h1
  have hk2 : arg ≠ "--help" := by intro h; rw [h, hx2] at h1; cases h1
  have hk3 : arg ≠ "-h" := by intro h; rw [h, hx3] at h1; cases h1
  have hk4 : arg ≠ "all" := by intro h; rw [h, hx4] at h1; cases h1
  rw [plugin_run_single, if_neg (by tauto), if_neg hk4, h1]
  show (if i < 0 ∨ ((g :: gs).length : Int) ≤ i then
      (⟨1, "", indexOutOfRangeMsg i (g :: gs).length⟩ : RunResult)
    else ⟨0, display_gpu (List.getD (g :: gs) i.toNat defaultGPU) false, ""⟩) = _
  by_cases hlt : i < ((g :: gs).length : Int)
  · rw [if_neg (by omega), if_pos hlt]
  · rw [if_pos (by omega), if_neg hlt]

/-- Claim C8 witness: with two records enumerated, the argument 5 exits
1 with the out-of-range diagnostic naming the range 0-1, and the
argument 1 displays record 1 and exits 0. -/
theorem claim_C8_witness :
    plugin_run (EnumOutcome.ok [gpuA, gpuB]) ["5"] = ⟨1, "", indexOutOfRangeMsg 5 2⟩ ∧
    plugin_run (EnumOutcome.ok [gpuA, gpuB]) ["1"] = ⟨0, display_gpu gpuB false, ""⟩ ∧
    strContainsSub (indexOutOfRangeMsg 5 2) "Available GPUs: 0-1" = true := by
  have h5 := claim_C8_thm gpuA [gpuB] "5" 5 (by decide) (by decide)
  have h1 := claim_C8_thm gpuA [gpuB] "1" 1 (by decide) (by decide)
  refine ⟨?_, ?_, by decide⟩
  · rw [h5]; decide
  · rw [h1]; decide

/-- takeWhile keeps a whole list all of whose elements satisfy the
predicate. -/
theorem takeWhile_all {p : Char → Bool} :
    ∀ l : List Char, (∀ c ∈ l, p c = true) → List.takeWhile p l = l := by
  intro l
  induction l with
  | nil => intro _; rfl
  | cons c cs ih =>
    intro h
    rw [List.takeWhile_cons, if_pos (h c (List.mem_cons_self c cs))]
    rw [ih (fun x hx => h x (List.mem_cons_of_mem c hx))]

/-- A digit character is not a space character. -/
theorem isDigitC_not_space {c : Char} (h : isDigitC c = true) : isSpaceC c = false := by
  simp only [isDigitC, Bool.and_eq_true, decide_eq_true_eq] at h
  simp only [isSpaceC, Bool.or_eq_false_iff, decide_eq_false_iff_not]
  omega

/-- stoi on a non-empty all-digit string whose value is above the int
maximum raises out_of_range. -/
theorem stoi_digits_big (s : String) (h1 : s.data ≠ [])
    (h2 : ∀ c ∈ s.data, isDigitC c = true)
    (h3 : intMax < (digitsVal s.data : Int)) :
    stoi s = Except.error StoiError.outOfRange := by
  obtain ⟨c, cs, hcs⟩ := List.exists_cons_of_ne_nil h1
  have hdig : isDigitC c = true := h2 c (hcs ▸ List.mem_cons_self c cs)
  have hdig48 : 48 ≤ c.toNat ∧ c.toNat ≤ 57 := by
    simp only [isDigitC, Bool.and_eq_true, decide_eq_true_eq] at hdig
    exact hdig
  have hdrop : s.data.dropWhile isSpaceC = s.data := by
    rw [hcs, List.dropWhile_cons, if_neg]
    simp [isDigitC_not_space hdig]
  have hsign : splitSign s.data = (1, s.data) := by
    rw [hcs]
    simp only [splitSign]
    rw [if_neg (by omega), if_neg (by omega)]
  have htake : List.takeWhile isDigitC s.data = s.data := takeWhile_all s.data h2
  simp only [stoi, hdrop, hsign, htake]
  rw [if_neg (by rw [hcs]; simp), if_pos]
  right
  rw [one_mul]
  exact h3

/-! Claim C10. -/

/-- Claim C10: a single argument that is a decimal numeral above the
int range makes std stoi raise out_of_range, which the catch clause
reports with the invalid-argument diagnostic and exit code 1, not with
the index-out-of-range diagnostic. -/
theorem claim_C10_thm (g : GPUInfo) (gs : List GPUInfo) (arg : String)
    (h1 : arg.data ≠ []) (h2 : ∀ c ∈ arg.data, isDigitC c = true)
    (h3 : intMax < (digitsVal arg.data : Int)) :
    stoi arg = Except.error StoiError.outOfRange ∧
    plugin_run (EnumOutcome.ok (g :: gs)) [arg] = ⟨1, "", invalidArgumentMsg arg⟩ := by
  have hs : stoi arg = Except.error StoiError.outOfRange := stoi_digits_big arg h1 h2 h3
  have hk1 : arg ≠ "help" := by
    intro h
    have := h2 (Char.ofNat 104) (by rw [h]; decide)
    exact absurd this (by decide)
  have hk2 : arg ≠ "--help" := by
    intro h
    have := h2 (Char.ofNat 45) (by rw [h]; decide)
    exact absurd this (by decide)
  have hk3 : arg ≠ "-h" := by
    intro h
    have := h2 (Char.ofNat 45) (by rw [h]; decide)
    exact absurd this (by decide)
  have hk4 : arg ≠ "all" := by
    intro h
    have := h2 (Char.ofNat 97) (by rw [h]; decide)
    exact absurd this (by decide)
  exact ⟨hs, run_single_stoi_error g gs arg StoiError.outOfRange hk1 hk2 hk3 hk4 hs⟩

/-- Claim C10 witness: the numeral 2147483648 (one past the int
maximum) with one record enumerated yields the invalid-argument
diagnostic, whose text does not mention an out-of-range index. -/
theorem claim_C10_witness :
    (stoi "2147483648" = Except.error StoiError.outOfRange ∧
     plugin_run (EnumOutcome.ok [gpuA]) ["2147483648"] =
       ⟨1, "", invalidArgumentMsg "2147483648"⟩) ∧
    strContainsSub (invalidArgumentMsg "2147483648") "Invalid argument" = true ∧
    strContainsSub (invalidArgumentMsg "2147483648") "out of range" = false := by
  refine ⟨claim_C10_thm gpuA [] "2147483648" (by decide) (by decide) (by decide),
    by decide, by decide⟩

/-! Claim C9. -/

/-- Unfolding of plugin_run at a non-empty record list and no
arguments. -/
theorem plugin_run_noargs (g : GPUInfo) (gs : List GPUInfo) :
    plugin_run (EnumOutcome.ok (g :: gs)) [] =
      (match List.find? (fun x => x.is_active) (g :: gs) with
       | some x => (⟨0, display_gpu x false, ""⟩ : RunResult)
       | none => ⟨0, display_gpu g false, ""⟩) := rfl

/-- A single non-keyword argument that stoi parses to the integer i
takes the index path: the out-of-range diagnostic when i is negative or
at least the record count, and a display of record i otherwise. -/
theorem run_single_stoi_ok (g : GPUInfo) (gs : List GPUInfo) (arg : String) (i : Int)
    (h1 : arg ≠ "help") (h2 : arg ≠ "--help") (h3 : arg ≠ "-h") (h4 : arg ≠ "all")
    (h5 : stoi arg = Except.ok i) :
    plugin_run (EnumOutcome.ok (g :: gs)) [arg] =
      if i < 0 ∨ ((g :: gs).length : Int) ≤ i then
        ⟨1, "", indexOutOfRangeMsg i (g :: gs).length⟩
      else ⟨0, display_gpu (List.getD (g :: gs) i.toNat defaultGPU) false, ""⟩ := by
  rw [plugin_run_single, if_neg (by tauto), if_neg h4, h5]


/-- A run result with exit code 1 and a non-empty error stream
satisfies the exit-code discipline: the code is 0 or 1, it is 0 exactly
when nothing was written to the error stream, and 1 exactly when an
error diagnostic was. -/
theorem run_props_error (r : RunResult) (he : r.exit = 1) (hs : r.stderr ≠ "") :
    (r.exit = 0 ∨ r.exit = 1) ∧ (r.exit = 0 ↔ r.stderr = "") ∧
    (r.exit = 1 ↔ r.stderr ≠ "") := by
  refine ⟨Or.inr he, ?_, ?_⟩
  · constructor
    · intro h
      rw [he] at h
      exact absurd h (by decide)
    · intro h
      exact absurd h hs
  · exact ⟨fun _ => hs, fun _ => he⟩

/-- A run result with exit code 0 and an empty error stream satisfies
the exit-code discipline. -/
theorem run_props_success (r : RunResult) (he : r.exit = 0) (hs : r.stderr = "") :
    (r.exit = 0 ∨ r.exit = 1) ∧ (r.exit = 0 ↔ r.stderr = "") ∧
    (r.exit = 1 ↔ r.stderr ≠ "") := by
  refine ⟨Or.inl he, ⟨fun _ => hs, fun _ => he⟩, ?_⟩
  constructor
  · intro h
    rw [he] at h
    exact absurd h (by decide)
  · intro h
    exact absurd hs h

/-- The unknown-exception diagnostic is not the empty string. -/
theorem unknownExcMsg_ne_empty :
    Color.YELLOW ++ "Error: Unknown exception occurred." ++ Color.RESET ++ "\n" ≠ ("" : String) := by
  decide

/-- The no-GPU warning is not the empty string. -/
theorem noGpusWarning_ne_empty : noGpusWarning ≠ "" := by decide

/-- The too-many-arguments diagnostic is not the empty string. -/
theorem tooManyArgumentsMsg_ne_empty : tooManyArgumentsMsg ≠ "" := by decide

/-- The generic std exception diagnostic is never the empty string,
whatever the carried message. -/
theorem stdExcMsg_ne_empty (m : String) :
    Color.YELLOW ++ "Error: " ++ m ++ Color.RESET ++ "\n" ≠ "" := by
  intro h
  have hl := congrArg String.length h
  simp only [String.length_append] at hl
  have h5 : Color.YELLOW.length = 5 := by decide
  have h0 : ("" : String).length = 0 := rfl
  rw [h5, h0] at hl
  omega

/-- The invalid-argument diagnostic is never the empty string, whatever
the offending argument. -/
theorem invalidArgumentMsg_ne_empty (arg : String) : invalidArgumentMsg arg ≠ "" := by
  intro h
  have hl := congrArg String.length h
  simp only [invalidArgumentMsg, String.length_append] at hl
  have h5 : Color.YELLOW.length = 5 := by decide
  have h0 : ("" : String).length = 0 := rfl
  rw [h5, h0] at hl
  omega

/-- The index-out-of-range diagnostic is never the empty string,
whatever the index and count. -/
theorem indexOutOfRangeMsg_ne_empty (i : Int) (n : Nat) : indexOutOfRangeMsg i n ≠ "" := by
  intro h
  have hl := congrArg String.length h
  simp only [indexOutOfRangeMsg, String.length_append] at hl
  have h5 : Color.YELLOW.length = 5 := by decide
  have h0 : ("" : String).length = 0 := rfl
  rw [h5, h0] at hl
  omega

/-- Claim C9: on every enumeration outcome (a thrown exception
included) and every argument list, plugin_run returns 0 or 1 and
nothing else, and it returns 0 exactly on the success paths (nothing
written to the error stream) and 1 exactly on the handled-error paths
(an error diagnostic written). -/
theorem claim_C9_thm (enum : EnumOutcome) (args : List String) :
    ((plugin_run enum args).exit = 0 ∨ (plugin_run enum args).exit = 1) ∧
    ((plugin_run enum args).exit = 0 ↔ (plugin_run enum args).stderr = "") ∧
    ((plugin_run enum args).exit = 1 ↔ (plugin_run enum args).stderr ≠ "") := by
  cases enum with
  | stdExc m => exact run_props_error _ rfl (stdExcMsg_ne_empty m)
  | unknownExc => exact run_props_error _ rfl unknownExcMsg_ne_empty
  | ok gpus =>
    cases gpus with
    | nil => exact run_props_error _ rfl noGpusWarning_ne_empty
    | cons g0 rest =>
      cases args with
      | nil =>
        rw [plugin_run_noargs]
        cases List.find? (fun x => x.is_active) (g0 :: rest) with
        | none => exact run_props_success _ rfl rfl
        | some x => exact run_props_success _ rfl rfl
      | cons a as =>
        cases as with
        | nil =>
          by_cases ha : a = "help" ∨ a = "--help" ∨ a = "-h"
          · rw [plugin_run_single, if_pos ha]
            exact run_props_success _ rfl rfl
          · by_cases hb : a = "all"
            · rw [plugin_run_single, if_neg ha, if_pos hb]
              exact run_props_success _ rfl rfl
            · push_neg at ha
              cases hs : stoi a with
              | error e =>
                rw [run_single_stoi_error g0 rest a e ha.1 ha.2.1 ha.2.2 hb hs]
                exact run_props_error _ rfl (invalidArgumentMsg_ne_empty a)
              | ok i =>
                rw [run_single_stoi_ok g0 rest a i ha.1 ha.2.1 ha.2.2 hb hs]
                by_cases hc : i < 0 ∨ ((g0 :: rest).length : Int) ≤ i
                · rw [if_pos hc]
                  exact run_props_error _ rfl (indexOutOfRangeMsg_ne_empty i _)
                · rw [if_neg hc]
                  exact run_props_success _ rfl rfl
        | cons b bs => exact run_props_error _ rfl tooManyArgumentsMsg_ne_empty
